import Mathlib

/-!
Shallow embedding of the two resource adapters of this repository
(`azurerm/resource_arm_storage_account.go` and `azurerm/resource_arm_snapshot.go`)
together with proofs about their lifecycle behaviour.

The remote client (create / get / update / delete / list-keys responses) is an
explicit environment value; the terraform `ResourceData` document is an explicit
state record threaded through each operation.  Go `nil`-pointer dereferences and
out-of-range slice indexing are modelled as a distinct `panics` outcome.
Helpers of the repository that live outside the two source files (the resource
id parser, location normalizer, tag codec, disk-encryption-settings codec) are
modelled from the spec and marked as such.
-/

namespace AzureRM

/-- Result of a remote call in the Go style `(resp, err)`; the `notFound` flag
models `utils.ResponseWasNotFound(resp.Response)` on the error response. -/
inductive GoResult (α : Type) where
  | ok (val : α)
  | err (notFound : Bool) (msg : String)
deriving DecidableEq

/-- Outcome of a lifecycle operation on a declarative document of type `σ`:
normal return `ok`, error return `fails` (the document in the state it was
left in), or a Go runtime panic (nil dereference / index out of range). -/
inductive ReadOutcome (σ : Type) where
  | panics
  | fails (msg : String) (doc : σ)
  | ok (doc : σ)
deriving DecidableEq

/-- Parsed ARM resource id: resource group plus the key/value path segments. -/
structure AzureResourceId where
  resourceGroup : String
  path : List (String × String)
deriving DecidableEq

/-- Go `strings.Split` with a single-character separator, on the character
list: every occurrence of `sep` starts a new chunk. -/
def goSplitChar (sep : Char) : List Char → List (List Char)
  | [] => [[]]
  | c :: cs =>
    match goSplitChar sep cs with
    | [] => [[]]
    | r :: rs => if c = sep then [] :: r :: rs else (c :: r) :: rs

/-- Go `strings.Split s sep` for a one-character separator, as used at
`resource_arm_storage_account.go:489`. -/
def goSplit (sep : Char) (s : String) : List String :=
  (goSplitChar sep s.data).map (fun l => String.mk l)

/-- Pair up a flat segment list `[k1, v1, k2, v2, ...]`; fails on odd length. -/
def pairUpSegments : List String → Option (List (String × String))
  | [] => some []
  | [_] => none
  | k :: v :: rest => (pairUpSegments rest).map (fun l => (k, v) :: l)

/-- Modelled from the spec: the identifier parser (`parseAzureResourceID`, not
part of the two source files).  It extracts the addressing coordinates
(resource group, per-type resource name) from the opaque identifier and fails
with a parse error on malformed identifiers. -/
def parseAzureResourceID (id : String) : Option AzureResourceId :=
  match goSplit '/' id with
  | "" :: rest =>
    if rest.isEmpty then none
    else
      match pairUpSegments rest with
      | none => none
      | some kvs =>
        match kvs.lookup "resourceGroups" with
        | none => none
        | some rg => some ⟨rg, kvs⟩
  | _ => none

/-- Modelled from the spec: `azureRMNormalizeLocation` (not part of the two
source files): lowercases the location and strips spaces. -/
def azureRMNormalizeLocation (s : String) : String :=
  String.mk (s.data.filterMap (fun c => if c = ' ' then none else some c.toLower))

/-- Modelled from the spec: the tag codec `expandTags`; the wire representation
is kept as the same association list. -/
def expandTags (t : List (String × String)) : List (String × String) := t

/-! ## Remote representation of a storage account (`storage.Account`) -/

/-- `storage.EncryptionService`: the `Enabled` field is a `*bool`. -/
structure EncryptionService where
  enabled : Option Bool
deriving DecidableEq

/-- `storage.EncryptionServices`: both services are pointers. -/
structure EncryptionServices where
  blob : Option EncryptionService
  file : Option EncryptionService
deriving DecidableEq

/-- `storage.Encryption`: services pointer plus the `KeySource` pointer. -/
structure AccountEncryption where
  services : Option EncryptionServices
  keySource : Option String
deriving DecidableEq

/-- `storage.Endpoints`: each endpoint is a `*string`. -/
structure AccountEndpoints where
  blob : Option String
  queue : Option String
  table : Option String
  file : Option String
deriving DecidableEq

/-- `storage.Sku`: the combined name (`"Standard_LRS"` style) and the tier. -/
structure GoSku where
  name : String
  tier : String
deriving DecidableEq

/-- `storage.CustomDomain` as returned remotely (both fields pointers). -/
structure RemoteCustomDomain where
  name : Option String
  useSubDomain : Option Bool
deriving DecidableEq

/-- `storage.AccountKey`: the `Value` field is a `*string`. -/
structure AccountKey where
  value : Option String
deriving DecidableEq

/-- `storage.AccountProperties` (pointer-valued fields are `Option`). -/
structure AccountProps where
  accessTier : String
  enableHttpsTrafficOnly : Option Bool
  customDomain : Option RemoteCustomDomain
  encryption : Option AccountEncryption
  primaryLocation : Option String
  secondaryLocation : Option String
  primaryEndpoints : Option AccountEndpoints
  secondaryEndpoints : Option AccountEndpoints
deriving DecidableEq

/-- `storage.Account` as returned by `GetProperties`. -/
structure RemoteAccount where
  id : Option String
  name : Option String
  location : Option String
  kind : String
  sku : Option GoSku
  props : Option AccountProps
  tags : List (String × String)
deriving DecidableEq

/-! ## The declarative document of the storage account resource -/

/-- The `schema.ResourceData` document of `resourceArmStorageAccount`,
with one field per schema entry (plus the resource id). -/
structure StorageState where
  id : String
  name : String
  resourceGroupName : String
  location : String
  accountKind : String
  accountType : String
  accountTier : String
  accountReplicationType : String
  accessTier : String
  customDomain : List (String × Bool)
  enableBlobEncryption : Bool
  enableFileEncryption : Bool
  enableHttpsTrafficOnly : Bool
  primaryLocation : String
  secondaryLocation : String
  primaryBlobEndpoint : String
  secondaryBlobEndpoint : String
  primaryQueueEndpoint : String
  secondaryQueueEndpoint : String
  primaryTableEndpoint : String
  secondaryTableEndpoint : String
  primaryFileEndpoint : String
  primaryAccessKey : String
  secondaryAccessKey : String
  primaryBlobConnectionString : String
  secondaryBlobConnectionString : String
  tags : List (String × String)
deriving DecidableEq

/-- Remote responses consumed by `resourceArmStorageAccountRead`:
`GetProperties` and `ListKeys` (whose `Keys` field is a pointer to a slice). -/
structure StorageReadEnv where
  getProps : GoResult RemoteAccount
  listKeys : GoResult (Option (List AccountKey))
deriving DecidableEq

/-- The connection-string format string of
`resource_arm_storage_account.go:523` and `:531`. -/
def connString (endpoint name key : String) : String :=
  "DefaultEndpointsProtocol=https;BlobEndpoint=" ++ endpoint ++ ";AccountName="
    ++ name ++ ";AccountKey=" ++ key

/-! ### `resourceArmStorageAccountRead`, split into its source blocks.
The stages are sequenced back to front; each mirrors one block of
`resource_arm_storage_account.go` lines 456-559. -/

/-- Lines 553-558: the unconditional `accessKeys[0]` / `accessKeys[1]`
accesses (out of range ⇒ panic) and the final tag reflection. -/
def storageReadKeysTail (st : StorageState) (resp : RemoteAccount)
    (accessKeys : List AccountKey) : ReadOutcome StorageState :=
  match accessKeys.get? 0 with
  | none => .panics
  | some key0 =>
    let st := { st with primaryAccessKey := key0.value.getD "" }
    match accessKeys.get? 1 with
    | none => .panics
    | some key1 =>
      let st := { st with secondaryAccessKey := key1.value.getD "" }
      .ok { st with tags := resp.tags }

/-- Lines 539-549: queue and table secondary endpoints; absent remote values
are written back as empty strings. -/
def storageReadSecondaryQT (st : StorageState) (resp : RemoteAccount)
    (eps : AccountEndpoints) (accessKeys : List AccountKey) : ReadOutcome StorageState :=
  let st := match eps.queue with
            | some q => { st with secondaryQueueEndpoint := q }
            | none => { st with secondaryQueueEndpoint := "" }
  let st := match eps.table with
            | some t => { st with secondaryTableEndpoint := t }
            | none => { st with secondaryTableEndpoint := "" }
  storageReadKeysTail st resp accessKeys

/-- Lines 528-550: the `SecondaryEndpoints` block.  When the whole group is
absent remotely nothing is written; when the blob endpoint is present the
secondary connection string dereferences `*resp.Name` and `*accessKeys[1].Value`. -/
def storageReadSecondaryEps (st : StorageState) (resp : RemoteAccount)
    (props : AccountProps) (accessKeys : List AccountKey) : ReadOutcome StorageState :=
  match props.secondaryEndpoints with
  | none => storageReadKeysTail st resp accessKeys
  | some eps =>
    match eps.blob with
    | some blobEp =>
      let st := { st with secondaryBlobEndpoint := blobEp }
      match resp.name with
      | none => .panics
      | some respName =>
        match accessKeys.get? 1 with
        | none => .panics
        | some key1 =>
          match key1.value with
          | none => .panics
          | some key1val =>
            let st := { st with
              secondaryBlobConnectionString := connString blobEp respName key1val }
            storageReadSecondaryQT st resp eps accessKeys
    | none =>
      let st := { st with secondaryBlobEndpoint := "", secondaryBlobConnectionString := "" }
      storageReadSecondaryQT st resp eps accessKeys

/-- Lines 517-526: the `PrimaryEndpoints` block; the primary connection string
dereferences `*endpoints.Blob`, `*resp.Name` and `*accessKeys[0].Value`. -/
def storageReadPrimaryEps (st : StorageState) (resp : RemoteAccount)
    (props : AccountProps) (accessKeys : List AccountKey) : ReadOutcome StorageState :=
  match props.primaryEndpoints with
  | none => storageReadSecondaryEps st resp props accessKeys
  | some eps =>
    let st := { st with
      primaryBlobEndpoint := eps.blob.getD ""
      primaryQueueEndpoint := eps.queue.getD ""
      primaryTableEndpoint := eps.table.getD ""
      primaryFileEndpoint := eps.file.getD "" }
    match eps.blob with
    | none => .panics
    | some blobEp =>
      match resp.name with
      | none => .panics
      | some respName =>
        match accessKeys.get? 0 with
        | none => .panics
        | some key0 =>
          match key0.value with
          | none => .panics
          | some key0val =>
            let st := { st with
              primaryBlobConnectionString := connString blobEp respName key0val }
            storageReadSecondaryEps st resp props accessKeys

/-- Lines 502-511: the encryption-services block (no dereference can fail). -/
def storageReadEncryptionFields (st : StorageState) (props : AccountProps) : StorageState :=
  match props.encryption with
  | none => st
  | some enc =>
    match enc.services with
    | none => st
    | some services =>
      let st := match services.blob with
                | some blob => { st with enableBlobEncryption := blob.enabled.getD false }
                | none => st
      match services.file with
      | some file => { st with enableFileEncryption := file.enabled.getD false }
      | none => st

/-- Lines 492-551: the `AccountProperties` block; `flattenStorageAccountCustomDomain`
dereferences `*input.Name` (line 593). -/
def storageReadProps (st : StorageState) (resp : RemoteAccount)
    (accessKeys : List AccountKey) : ReadOutcome StorageState :=
  match resp.props with
  | none => storageReadKeysTail st resp accessKeys
  | some props =>
    let st := { st with
      accessTier := props.accessTier
      enableHttpsTrafficOnly := props.enableHttpsTrafficOnly.getD false }
    match props.customDomain with
    | some cd =>
      match cd.name with
      | none => .panics
      | some cdName =>
        let st := { st with customDomain := [(cdName, false)] }
        let st := storageReadEncryptionFields st props
        let st := { st with
          primaryLocation := props.primaryLocation.getD ""
          secondaryLocation := props.secondaryLocation.getD "" }
        storageReadPrimaryEps st resp props accessKeys
    | none =>
      let st := storageReadEncryptionFields st props
      let st := { st with
        primaryLocation := props.primaryLocation.getD ""
        secondaryLocation := props.secondaryLocation.getD "" }
      storageReadPrimaryEps st resp props accessKeys

/-- Lines 486-490: the `Sku` block.  The replication type is
`strings.Split(sku.Name, "_")[1]`: out of range when the name has no `"_"`. -/
def storageReadSku (st : StorageState) (resp : RemoteAccount)
    (accessKeys : List AccountKey) : ReadOutcome StorageState :=
  match resp.sku with
  | none => storageReadProps st resp accessKeys
  | some sku =>
    let st := { st with accountType := sku.name, accountTier := sku.tier }
    match (goSplit '_' sku.name).get? 1 with
    | none => .panics
    | some repl =>
      let st := { st with accountReplicationType := repl }
      storageReadProps st resp accessKeys

/-- `resourceArmStorageAccountRead` (`resource_arm_storage_account.go:456-559`). -/
def resourceArmStorageAccountRead (s : StorageState) (env : StorageReadEnv) :
    ReadOutcome StorageState :=
  match parseAzureResourceID s.id with
  | none => .fails "parseAzureResourceID: invalid resource id" s
  | some rid =>
    let name := (rid.path.lookup "storageAccounts").getD ""
    match env.getProps with
    | .err true _ => .ok { s with id := "" }
    | .err false msg =>
      .fails ("Error reading the state of AzureRM Storage Account \"" ++ name
        ++ "\": " ++ msg) s
    | .ok resp =>
      match env.listKeys with
      | .err _ msg => .fails msg s
      | .ok none => .panics
      | .ok (some accessKeys) =>
        let st := { s with name := resp.name.getD "", resourceGroupName := rid.resourceGroup }
        match resp.location with
        | none => .panics
        | some loc =>
          let st := { st with
            location := azureRMNormalizeLocation loc
            accountKind := resp.kind }
          storageReadSku st resp accessKeys

/-! ## `resourceArmStorageAccountCreate` -/

/-- `storageAccountEncryptionSource` (`resource_arm_storage_account.go:19`). -/
def storageAccountEncryptionSource : String := "Microsoft.Storage"

/-- `blobStorageAccountDefaultAccessTier` (`resource_arm_storage_account.go:21`). -/
def blobStorageAccountDefaultAccessTier : String := "Hot"

/-- The validation error of lines 257 and 335 (backquotes and the apostrophe of
the Go literal elided). -/
def zrsBlobMsg : String :=
  "A account_replication_type of ZRS is not supported for Blob Storage accounts."

/-- `storage.AccountCreateParameters` as built by the create function. -/
structure AccountCreateParameters where
  location : String
  skuName : String
  tags : List (String × String)
  kind : String
  encryptionBlobEnabled : Bool
  encryptionFileEnabled : Option Bool
  encryptionKeySource : String
  enableHttpsTrafficOnly : Bool
  customDomain : Option (String × Bool)
  accessTier : String
deriving DecidableEq

/-- `expandStorageAccountCustomDomain` (lines 579-588): reads `domains[0]`,
which panics when the configured list is empty. -/
def expandStorageAccountCustomDomain (domains : List (String × Bool)) :
    Except Unit (String × Bool) :=
  match domains.get? 0 with
  | none => .error ()
  | some d0 => .ok d0

/-- Lines 225-252: the `AccountCreateParameters` literal, the
`enable_file_encryption` `GetOk` block and the `custom_domain` `GetOk` block.
`GetOk` on a bool is true only for `true`; on a list, only when non-empty. -/
def buildStorageCreateParams (s : StorageState) : Except Unit AccountCreateParameters :=
  let storageType := s.accountTier ++ "_" ++ s.accountReplicationType
  let base : AccountCreateParameters := {
    location := s.location
    skuName := storageType
    tags := expandTags s.tags
    kind := s.accountKind
    encryptionBlobEnabled := s.enableBlobEncryption
    encryptionFileEnabled := none
    encryptionKeySource := storageAccountEncryptionSource
    enableHttpsTrafficOnly := s.enableHttpsTrafficOnly
    customDomain := none
    accessTier := "" }
  let base := if s.enableFileEncryption then
                { base with encryptionFileEnabled := some s.enableFileEncryption }
              else base
  if s.customDomain.isEmpty then .ok base
  else
    match expandStorageAccountCustomDomain s.customDomain with
    | .error u => .error u
    | .ok cd => .ok { base with customDomain := some cd }

/-- The remote calls a storage-account create can issue. -/
inductive StorageCall where
  | create (params : AccountCreateParameters)
  | getProps
  | wait
deriving DecidableEq

/-- Remote responses consumed by `resourceArmStorageAccountCreate`: the create
error channel, the follow-up `GetProperties` (error and `read.ID`), the
`WaitForState` poll outcome, and the final read's responses. -/
structure StorageCreateEnv where
  createErr : Option String
  getErr : Option String
  getId : Option String
  waitErr : Option String
  readEnv : StorageReadEnv
deriving DecidableEq

/-- Trace and result of a storage-account create. -/
structure StorageCreateOutcome where
  calls : List StorageCall
  result : ReadOutcome StorageState
deriving DecidableEq

/-- Lines 269-313: issue Create, always follow with `GetProperties`, record the
id when one came back, then surface the create error / read error / missing id
in that order, then wait for `Succeeded` and run the read. -/
def storageAccountCreateCalls (s : StorageState) (env : StorageCreateEnv)
    (params : AccountCreateParameters) : StorageCreateOutcome :=
  let s1 := match env.getErr, env.getId with
            | none, some i => { s with id := i }
            | _, _ => s
  let baseCalls := [StorageCall.create params, StorageCall.getProps]
  match env.createErr with
  | some e =>
    ⟨baseCalls, .fails ("Error creating Azure Storage Account \"" ++ s.name ++ "\": " ++ e) s1⟩
  | none =>
    match env.getErr with
    | some e => ⟨baseCalls, .fails e s1⟩
    | none =>
      match env.getId with
      | none =>
        ⟨baseCalls, .fails ("Cannot read Storage Account \"" ++ s.name
          ++ "\" (resource group \"" ++ s.resourceGroupName ++ "\") ID") s1⟩
      | some _ =>
        match env.waitErr with
        | some e =>
          ⟨baseCalls ++ [StorageCall.wait],
            .fails ("Error waiting for Storage Account (" ++ s.name
              ++ ") to become available: " ++ e) s1⟩
        | none =>
          ⟨baseCalls ++ [StorageCall.wait], resourceArmStorageAccountRead s1 env.readEnv⟩

/-- `resourceArmStorageAccountCreate` (`resource_arm_storage_account.go:208-314`). -/
def resourceArmStorageAccountCreate (s : StorageState) (env : StorageCreateEnv) :
    StorageCreateOutcome :=
  match buildStorageCreateParams s with
  | .error _ => ⟨[], .panics⟩
  | .ok params =>
    if s.accountKind == "BlobStorage" then
      if params.skuName == "Standard_ZRS" then
        ⟨[], .fails zrsBlobMsg s⟩
      else
        let accessTier := if s.accessTier == "" then blobStorageAccountDefaultAccessTier
                          else s.accessTier
        storageAccountCreateCalls s env { params with accessTier := accessTier }
    else
      storageAccountCreateCalls s env params

/-! ## `resourceArmStorageAccountUpdate` -/

/-- The per-field `HasChange` answers of the diff tracker for one update run. -/
structure StorageChanges where
  accountReplicationType : Bool
  accessTier : Bool
  tags : Bool
  enableBlobEncryption : Bool
  enableFileEncryption : Bool
  customDomain : Bool
  enableHttpsTrafficOnly : Bool
deriving DecidableEq

/-- The `storage.Encryption` payload of the encryption update group. -/
structure EncryptionUpdate where
  blobEnabled : Option Bool
  fileEnabled : Option Bool
  keySource : String
deriving DecidableEq

/-- `storage.AccountPropertiesUpdateParameters` (value-typed `AccessTier`,
pointer-typed rest). -/
structure UpdateProps where
  accessTier : String := ""
  encryption : Option EncryptionUpdate := none
  customDomain : Option (String × Bool) := none
  enableHttpsTrafficOnly : Option Bool := none
deriving DecidableEq

/-- `storage.AccountUpdateParameters`. -/
structure AccountUpdateParameters where
  skuName : Option String := none
  tags : Option (List (String × String)) := none
  props : Option UpdateProps := none
deriving DecidableEq

/-- One `if d.HasChange(...) { ... }` block of the update function: its guard,
the request it builds (which may panic while being built), the `SetPartial`
keys recorded before and after the remote call, and its error format. -/
structure GroupSpec where
  cond : Bool
  params : Except Unit AccountUpdateParameters
  partialsBefore : List String
  partialsAfter : List String
  errMsg : String → String

/-- Result of an update run. -/
inductive UpdResult where
  | ok
  | err (msg : String)
  | panics
deriving DecidableEq

/-- Trace of an update run: the issued `client.Update` requests in order, the
`SetPartial` keys in order, and the returned value. -/
structure UpdateOutcome where
  calls : List AccountUpdateParameters
  partials : List String
  result : UpdResult
deriving DecidableEq

/-- Run the update blocks in order.  A block whose guard is false issues
nothing; a failing remote call stops the run with that block's error; the
response to the n-th issued call is `env n`. -/
def runUpdGroups (env : Nat → Option String) :
    List GroupSpec → List AccountUpdateParameters → List String → UpdateOutcome
  | [], calls, partials => ⟨calls, partials, .ok⟩
  | g :: rest, calls, partials =>
    if g.cond then
      match g.params with
      | .error _ => ⟨calls, partials, .panics⟩
      | .ok p =>
        let partials1 := partials ++ g.partialsBefore
        match env calls.length with
        | some e => ⟨calls ++ [p], partials1, .err (g.errMsg e)⟩
        | none => runUpdGroups env rest (calls ++ [p]) (partials1 ++ g.partialsAfter)
    else
      runUpdGroups env rest calls partials

/-- Lines 390-414: the `storage.Encryption` payload of the encryption group;
each sub-flag is only put into the request when it changed, and the fixed
key source is always injected. -/
def encryptionUpdateOf (s : StorageState) (c : StorageChanges) : EncryptionUpdate :=
  { blobEnabled := if c.enableBlobEncryption then some s.enableBlobEncryption else none
  , fileEnabled := if c.enableFileEncryption then some s.enableFileEncryption else none
  , keySource := storageAccountEncryptionSource }

/-- Lines 341-355: the replication-type block. -/
def replicationGroupSpec (s : StorageState) (c : StorageChanges)
    (storageAccountName : String) : GroupSpec :=
  { cond := c.accountReplicationType
  , params := .ok { skuName := some (s.accountTier ++ "_" ++ s.accountReplicationType) }
  , partialsBefore := []
  , partialsAfter := ["account_replication_type"]
  , errMsg := fun e => "Error updating Azure Storage Account type \""
      ++ storageAccountName ++ "\": " ++ e }

/-- Lines 357-372: the access-tier block. -/
def accessTierGroupSpec (s : StorageState) (c : StorageChanges)
    (storageAccountName : String) : GroupSpec :=
  { cond := c.accessTier
  , params := .ok { props := some { accessTier := s.accessTier } }
  , partialsBefore := []
  , partialsAfter := ["access_tier"]
  , errMsg := fun e => "Error updating Azure Storage Account access_tier \""
      ++ storageAccountName ++ "\": " ++ e }

/-- Lines 374-386: the tags block. -/
def tagsGroupSpec (s : StorageState) (c : StorageChanges)
    (storageAccountName : String) : GroupSpec :=
  { cond := c.tags
  , params := .ok { tags := some (expandTags s.tags) }
  , partialsBefore := []
  , partialsAfter := ["tags"]
  , errMsg := fun e => "Error updating Azure Storage Account tags \""
      ++ storageAccountName ++ "\": " ++ e }

/-- Lines 388-420: the encryption block; both `SetPartial` calls happen before
the remote call. -/
def encryptionGroupSpec (s : StorageState) (c : StorageChanges)
    (storageAccountName : String) : GroupSpec :=
  { cond := c.enableBlobEncryption || c.enableFileEncryption
  , params := .ok { props := some { encryption := some (encryptionUpdateOf s c) } }
  , partialsBefore :=
      (if c.enableBlobEncryption then ["enable_blob_encryption"] else [])
        ++ (if c.enableFileEncryption then ["enable_file_encryption"] else [])
  , partialsAfter := []
  , errMsg := fun e => "Error updating Azure Storage Account Encryption \""
      ++ storageAccountName ++ "\": " ++ e }

/-- Lines 422-434: the custom-domain block; no `SetPartial`, and building the
request runs `expandStorageAccountCustomDomain` (lines 579-588), which panics
on `domains[0]` when the configured list is empty. -/
def customDomainGroupSpec (s : StorageState) (c : StorageChanges)
    (storageAccountName : String) : GroupSpec :=
  { cond := c.customDomain
  , params := (expandStorageAccountCustomDomain s.customDomain).map
      (fun cd => { props := some { customDomain := some cd } })
  , partialsBefore := []
  , partialsAfter := []
  , errMsg := fun e => "Error updating Azure Storage Account Custom Domain \""
      ++ storageAccountName ++ "\": " ++ e }

/-- Lines 436-450: the transport-security block. -/
def httpsOnlyGroupSpec (s : StorageState) (c : StorageChanges)
    (storageAccountName : String) : GroupSpec :=
  { cond := c.enableHttpsTrafficOnly
  , params := .ok { props := some { enableHttpsTrafficOnly := some s.enableHttpsTrafficOnly } }
  , partialsBefore := []
  , partialsAfter := ["enable_https_traffic_only"]
  , errMsg := fun e => "Error updating Azure Storage Account enable_https_traffic_only \""
      ++ storageAccountName ++ "\": " ++ e }

/-- The six update blocks of `resource_arm_storage_account.go:341-450`, in
source order: replication type, access tier, tags, encryption, custom domain,
transport security. -/
def storageUpdateGroups (s : StorageState) (c : StorageChanges)
    (storageAccountName : String) : List GroupSpec :=
  [ replicationGroupSpec s c storageAccountName
  , accessTierGroupSpec s c storageAccountName
  , tagsGroupSpec s c storageAccountName
  , encryptionGroupSpec s c storageAccountName
  , customDomainGroupSpec s c storageAccountName
  , httpsOnlyGroupSpec s c storageAccountName ]

/-- The update blocks preceding the custom-domain block. -/
def storageUpdateGroupsPre (s : StorageState) (c : StorageChanges)
    (storageAccountName : String) : List GroupSpec :=
  [ replicationGroupSpec s c storageAccountName
  , accessTierGroupSpec s c storageAccountName
  , tagsGroupSpec s c storageAccountName
  , encryptionGroupSpec s c storageAccountName ]

/-- `resourceArmStorageAccountUpdate` (`resource_arm_storage_account.go:319-454`). -/
def resourceArmStorageAccountUpdate (s : StorageState) (c : StorageChanges)
    (env : Nat → Option String) : UpdateOutcome :=
  match parseAzureResourceID s.id with
  | none => ⟨[], [], .err "parseAzureResourceID: invalid resource id"⟩
  | some rid =>
    let storageAccountName := (rid.path.lookup "storageAccounts").getD ""
    let storageType := s.accountTier ++ "_" ++ s.accountReplicationType
    if s.accountKind == "BlobStorage" && storageType == "Standard_ZRS" then
      ⟨[], [], .err zrsBlobMsg⟩
    else
      runUpdGroups env (storageUpdateGroups s c storageAccountName) [] []

/-! ## `resourceArmStorageAccountDelete` -/

/-- The delete response: the client error (if any) and whether the remote side
reported not-found for it. -/
structure StorageDeleteEnv where
  deleteErr : Option String
  deleteNotFound : Bool
deriving DecidableEq

/-- `resourceArmStorageAccountDelete` (`resource_arm_storage_account.go:561-577`):
any delete error, not-found included, is returned as an error. -/
def resourceArmStorageAccountDelete (s : StorageState) (env : StorageDeleteEnv) :
    ReadOutcome StorageState :=
  match parseAzureResourceID s.id with
  | none => .fails "parseAzureResourceID: invalid resource id" s
  | some rid =>
    let name := (rid.path.lookup "storageAccounts").getD ""
    match env.deleteErr with
    | some e =>
      .fails ("Error issuing AzureRM delete request for storage account \""
        ++ name ++ "\": " ++ e) s
    | none => .ok s

/-! ## The snapshot resource (`resource_arm_snapshot.go`) -/

/-- Modelled from the spec: `expandManagedDiskEncryptionSettings` (not part of
the two source files); the settings document is treated as opaque. -/
def expandManagedDiskEncryptionSettings (settings : String) : String := settings

/-- Modelled from the spec: `flattenManagedDiskEncryptionSettings` (not part of
the two source files). -/
def flattenManagedDiskEncryptionSettings (settings : String) : String := settings

/-- Go `int32(x)` two's-complement truncation (`utils.Int32(int32(diskSizeGB))`). -/
def toInt32 (x : Int) : Int := (x + 2 ^ 31) % 2 ^ 32 - 2 ^ 31

/-- The declarative document of `resourceArmSnapshot`. -/
structure SnapshotState where
  id : String
  name : String
  resourceGroupName : String
  location : String
  createOption : String
  sourceUri : String
  sourceResourceId : String
  storageAccountId : String
  diskSizeGB : Int
  encryptionSettings : List String
  tags : List (String × String)
deriving DecidableEq

/-- `disk.CreationData` as returned remotely. -/
structure SnapCreationData where
  createOption : String
  sourceUri : Option String
  sourceResourceId : Option String
  storageAccountId : Option String
deriving DecidableEq

/-- `disk.Properties` as returned remotely. -/
structure SnapProps where
  creationData : Option SnapCreationData
  diskSizeGB : Option Int
  encryptionSettings : Option String
deriving DecidableEq

/-- `disk.Snapshot` as returned by `Get`. -/
structure SnapResp where
  id : Option String
  name : Option String
  location : Option String
  props : Option SnapProps
  tags : List (String × String)
deriving DecidableEq

/-- The `disk.Snapshot` request body built by `resourceArmSnapshotCreateUpdate`
(lines 86-117); `GetOk` on a string is true only for non-empty values, on a
list only when non-empty, and `disk_size_gb` is sent only when positive. -/
structure SnapProperties where
  location : String
  createOption : String
  sourceUri : Option String
  sourceResourceId : Option String
  storageAccountId : Option String
  diskSizeGB : Option Int
  encryptionSettings : Option String
  tags : List (String × String)
deriving DecidableEq

/-- Lines 80-117: assemble the create/update request body. -/
def snapshotProperties (s : SnapshotState) : SnapProperties :=
  { location := azureRMNormalizeLocation s.location
  , createOption := s.createOption
  , sourceUri := if s.sourceUri == "" then none else some s.sourceUri
  , sourceResourceId := if s.sourceResourceId == "" then none else some s.sourceResourceId
  , storageAccountId := if s.storageAccountId == "" then none else some s.storageAccountId
  , diskSizeGB := if s.diskSizeGB > 0 then some (toInt32 s.diskSizeGB) else none
  , encryptionSettings :=
      match s.encryptionSettings with
      | [] => none
      | e :: _ => some (expandManagedDiskEncryptionSettings e)
  , tags := expandTags s.tags }

/-- The remote calls a snapshot create/update can issue. -/
inductive SnapCall where
  | createOrUpdate (props : SnapProperties)
  | get
deriving DecidableEq

/-- Remote response consumed by `resourceArmSnapshotRead`. -/
structure SnapReadEnv where
  getResult : GoResult SnapResp
deriving DecidableEq

/-- Remote responses consumed by `resourceArmSnapshotCreateUpdate`. -/
structure SnapCreateEnv where
  createErr : Option String
  getAfterCreate : GoResult SnapResp
  readEnv : SnapReadEnv
deriving DecidableEq

/-- Trace and result of a snapshot create/update. -/
structure SnapCreateOutcome where
  calls : List SnapCall
  result : ReadOutcome SnapshotState
deriving DecidableEq

/-- `resourceArmSnapshotRead` (`resource_arm_snapshot.go:135-191`). -/
def resourceArmSnapshotRead (s : SnapshotState) (env : SnapReadEnv) :
    ReadOutcome SnapshotState :=
  match parseAzureResourceID s.id with
  | none => .fails "parseAzureResourceID: invalid resource id" s
  | some rid =>
    let name := (rid.path.lookup "snapshots").getD ""
    match env.getResult with
    | .err true _ => .ok { s with id := "" }
    | .err false msg =>
      .fails ("Error making Read request on Snapshot \"" ++ name ++ "\": " ++ msg) s
    | .ok resp =>
      let st := { s with name := resp.name.getD "" }
      match resp.location with
      | none => .panics
      | some loc =>
        let st := { st with
          location := azureRMNormalizeLocation loc
          resourceGroupName := rid.resourceGroup }
        let st := match resp.props with
          | none => st
          | some props =>
            let st := match props.creationData with
              | none => st
              | some data =>
                let st := { st with createOption := data.createOption }
                let st := match data.sourceUri with
                          | some u => { st with sourceUri := u }
                          | none => st
                let st := match data.sourceResourceId with
                          | some u => { st with sourceResourceId := u }
                          | none => st
                match data.storageAccountId with
                | some u => { st with storageAccountId := u }
                | none => st
            let st := match props.diskSizeGB with
                      | some n => { st with diskSizeGB := n }
                      | none => st
            match props.encryptionSettings with
            | some es =>
              { st with encryptionSettings := [flattenManagedDiskEncryptionSettings es] }
            | none => st
        .ok { st with tags := resp.tags }

/-- `resourceArmSnapshotCreateUpdate` (`resource_arm_snapshot.go:77-133`): a
create error is returned immediately (lines 119-123) — the follow-up `Get` of
line 125 is only issued on success, and `d.SetId(*resp.ID)` dereferences the
returned id. -/
def resourceArmSnapshotCreateUpdate (s : SnapshotState) (env : SnapCreateEnv) :
    SnapCreateOutcome :=
  let props := snapshotProperties s
  match env.createErr with
  | some e => ⟨[.createOrUpdate props], .fails e s⟩
  | none =>
    match env.getAfterCreate with
    | .err _ msg => ⟨[.createOrUpdate props, .get], .fails msg s⟩
    | .ok resp =>
      match resp.id with
      | none => ⟨[.createOrUpdate props, .get], .panics⟩
      | some i =>
        ⟨[.createOrUpdate props, .get],
          resourceArmSnapshotRead { s with id := i } env.readEnv⟩

/-- The snapshot delete response: the error channel value and whether the
response on the error path was not-found. -/
structure SnapDeleteEnv where
  deleteErr : Option String
  deleteNotFound : Bool
deriving DecidableEq

/-- `resourceArmSnapshotDelete` (`resource_arm_snapshot.go:193-220`): a delete
error whose response is not-found is absorbed into success. -/
def resourceArmSnapshotDelete (s : SnapshotState) (env : SnapDeleteEnv) :
    ReadOutcome SnapshotState :=
  match parseAzureResourceID s.id with
  | none => .fails "parseAzureResourceID: invalid resource id" s
  | some rid =>
    let name := (rid.path.lookup "snapshots").getD ""
    match env.deleteErr with
    | some e =>
      if env.deleteNotFound then .ok s
      else .fails ("Error making Read request on Snapshot \"" ++ name ++ "\": " ++ e) s
    | none => .ok s

/-! ## Sample documents and environments used by the concrete theorems -/

/-- A storage-account document with every field at its zero value. -/
def storageStateDefault : StorageState :=
  { id := "", name := "", resourceGroupName := "", location := ""
  , accountKind := "", accountType := "", accountTier := ""
  , accountReplicationType := "", accessTier := "", customDomain := []
  , enableBlobEncryption := false, enableFileEncryption := false
  , enableHttpsTrafficOnly := false
  , primaryLocation := "", secondaryLocation := ""
  , primaryBlobEndpoint := "", secondaryBlobEndpoint := ""
  , primaryQueueEndpoint := "", secondaryQueueEndpoint := ""
  , primaryTableEndpoint := "", secondaryTableEndpoint := ""
  , primaryFileEndpoint := "", primaryAccessKey := "", secondaryAccessKey := ""
  , primaryBlobConnectionString := "", secondaryBlobConnectionString := ""
  , tags := [] }

/-- A snapshot document with every field at its zero value. -/
def snapshotStateDefault : SnapshotState :=
  { id := "", name := "", resourceGroupName := "", location := ""
  , createOption := "", sourceUri := "", sourceResourceId := ""
  , storageAccountId := "", diskSizeGB := 0, encryptionSettings := [], tags := [] }

/-- A well-formed storage-account resource id. -/
def sampleStorageId : String :=
  "/subscriptions/sub1/resourceGroups/group1/providers/Microsoft.Storage/storageAccounts/acct1"

/-- A well-formed snapshot resource id. -/
def sampleSnapshotId : String :=
  "/subscriptions/sub1/resourceGroups/group1/providers/Microsoft.Compute/snapshots/snap1"

/-! ## Helper projections and derived views used by the theorems -/

/-- View an `Except Unit` as an `Option`. -/
def exceptOk? {α : Type} (e : Except Unit α) : Option α :=
  match e with
  | .ok a => some a
  | .error _ => none

/-- The update blocks whose `HasChange` guard is true, in source order: the
changed field groups of one update run. -/
def activeGroups (specs : List GroupSpec) : List GroupSpec :=
  specs.filter (fun g => g.cond)

/-- The requests the changed field groups build, in source order. -/
def activeParams (specs : List GroupSpec) : List AccountUpdateParameters :=
  (activeGroups specs).filterMap (fun g => exceptOk? g.params)

/-- The tier and replication type a read wrote back, when it succeeded. -/
def readTierRepl? (r : ReadOutcome StorageState) : Option (String × String) :=
  match r with
  | .ok out => some (out.accountTier, out.accountReplicationType)
  | _ => none

/-- The secondary-endpoint fields a read wrote back, when it succeeded:
blob endpoint, blob connection string, queue endpoint, table endpoint. -/
def readSecondaryFields? (r : ReadOutcome StorageState) :
    Option (String × String × String × String) :=
  match r with
  | .ok out => some (out.secondaryBlobEndpoint, out.secondaryBlobConnectionString,
      out.secondaryQueueEndpoint, out.secondaryTableEndpoint)
  | _ => none

/-- The access tier carried by the first (create) remote call of a create run. -/
def firstCreateCallAccessTier? (o : StorageCreateOutcome) : Option String :=
  match o.calls with
  | StorageCall.create p :: _ => some p.accessTier
  | _ => none

/-! ## Concrete sample documents and environments -/

/-- A storage-account document carrying a well-formed id. -/
def storageDocW : StorageState := { storageStateDefault with id := sampleStorageId }

/-- A snapshot document carrying a well-formed id. -/
def snapshotDocW : SnapshotState := { snapshotStateDefault with id := sampleSnapshotId }

/-- The parse of `sampleStorageId`. -/
def storageRidW : AzureResourceId :=
  ⟨"group1", [("subscriptions", "sub1"), ("resourceGroups", "group1"),
    ("providers", "Microsoft.Storage"), ("storageAccounts", "acct1")]⟩

/-- The parse of `sampleSnapshotId`. -/
def snapshotRidW : AzureResourceId :=
  ⟨"group1", [("subscriptions", "sub1"), ("resourceGroups", "group1"),
    ("providers", "Microsoft.Compute"), ("snapshots", "snap1")]⟩

/-- A read environment whose `GetProperties` reports not-found. -/
def envNotFoundW : StorageReadEnv :=
  { getProps := .err true "gone", listKeys := .err false "unused" }

/-- A snapshot read environment whose `Get` reports not-found. -/
def snapEnvNotFoundW : SnapReadEnv := { getResult := .err true "gone" }

/-- A storage delete response that fails with a not-found error. -/
def storageDelEnvNF : StorageDeleteEnv :=
  { deleteErr := some "ResourceNotFound", deleteNotFound := true }

/-- A snapshot delete response that succeeds. -/
def snapDelEnvOk : SnapDeleteEnv := { deleteErr := none, deleteNotFound := false }

/-- A snapshot delete response that fails with a not-found error. -/
def snapDelEnvNF : SnapDeleteEnv := { deleteErr := some "NotFound", deleteNotFound := true }

/-- A storage delete response that fails with an ordinary error. -/
def storageDelEnvErr : StorageDeleteEnv := { deleteErr := some "boom", deleteNotFound := false }

/-- Two access keys, as the remote side normally returns. -/
def twoKeys : List AccountKey := [{ value := some "key0" }, { value := some "key1" }]

/-- A remote account whose sku carries the combined name `"Standard_LRS"`. -/
def skuReadResp : RemoteAccount :=
  { id := some sampleStorageId, name := some "acct1", location := some "westus"
  , kind := "Storage", sku := some { name := "Standard_LRS", tier := "Standard" }
  , props := none, tags := [] }

/-- Read environment returning `skuReadResp` and two keys. -/
def skuReadEnv : StorageReadEnv :=
  { getProps := .ok skuReadResp, listKeys := .ok (some twoKeys) }

/-- A BlobStorage document with no access tier configured. -/
def blobDocW : StorageState :=
  { storageStateDefault with
      name := "acct1"
      resourceGroupName := "group1"
      accountKind := "BlobStorage"
      accountTier := "Standard"
      accountReplicationType := "LRS" }

/-- A plain Storage-kind document. -/
def stdDocW : StorageState :=
  { storageStateDefault with
      name := "acct1"
      resourceGroupName := "group1"
      accountKind := "Storage"
      accountTier := "Standard"
      accountReplicationType := "LRS" }

/-- A create environment where everything succeeds. -/
def createEnvW : StorageCreateEnv :=
  { createErr := none, getErr := none, getId := some sampleStorageId, waitErr := none
  , readEnv := envNotFoundW }

/-- A create environment where the create call fails but the follow-up Get
returns an identifier. -/
def createFailEnvW : StorageCreateEnv :=
  { createErr := some "boom", getErr := none, getId := some "recovered-id", waitErr := none
  , readEnv := envNotFoundW }

/-- The invalid BlobStorage + ZRS document. -/
def zrsDocW : StorageState :=
  { storageStateDefault with
      id := sampleStorageId
      name := "acct1"
      accountKind := "BlobStorage"
      accountTier := "Standard"
      accountReplicationType := "ZRS" }

/-- A diff report with no changed field. -/
def noChangesW : StorageChanges := ⟨false, false, false, false, false, false, false⟩

/-- An update environment where every remote call succeeds. -/
def updEnvNoneW : Nat → Option String := fun _ => none

/-- An update environment where the first remote call fails. -/
def updFail0W : Nat → Option String := fun n => if n = 0 then some "boom" else none

/-- A snapshot document used for the failed-create counterexample. -/
def snapCexDoc : SnapshotState :=
  { snapshotStateDefault with
      name := "snap1"
      resourceGroupName := "group1"
      location := "West US"
      createOption := "Copy" }

/-- A snapshot create environment whose create fails while the Get would
return a non-empty identifier. -/
def snapCexEnv : SnapCreateEnv :=
  { createErr := some "create failed"
  , getAfterCreate := .ok
      { id := some "someid", name := some "snap1", location := some "westus"
      , props := none, tags := [] }
  , readEnv := { getResult := .err false "unused" } }

/-- A snapshot create environment whose create fails. -/
def snapFailEnvW : SnapCreateEnv :=
  { createErr := some "bang", getAfterCreate := .err false "unused"
  , readEnv := { getResult := .err false "unused" } }

/-- An updatable storage document (valid id, Standard LRS). -/
def sUpdW : StorageState :=
  { storageStateDefault with
      id := sampleStorageId
      accountTier := "Standard"
      accountReplicationType := "LRS"
      tags := [("env", "dev")] }

/-- A diff report where tags and transport security changed. -/
def cUpdW : StorageChanges := ⟨false, false, true, false, false, false, true⟩

/-- A diff report where only the two encryption flags changed. -/
def cEncW : StorageChanges := ⟨false, false, false, true, true, false, false⟩

/-- A diff report where tags and custom domain changed (as when the
`custom_domain` block was removed from the configuration). -/
def cCdW : StorageChanges := ⟨false, false, true, false, false, true, false⟩

/-- A remote account with no sku and no properties block. -/
def oneKeyResp : RemoteAccount :=
  { id := some sampleStorageId, name := some "acct1", location := some "westus"
  , kind := "Storage", sku := none, props := none, tags := [] }

/-- A read environment whose `ListKeys` returns a single key. -/
def oneKeyEnv : StorageReadEnv :=
  { getProps := .ok oneKeyResp, listKeys := .ok (some [{ value := some "key0" }]) }

/-- A properties block whose secondary-endpoints group is present but empty. -/
def noSecBlobProps : AccountProps :=
  { accessTier := "Hot", enableHttpsTrafficOnly := none, customDomain := none
  , encryption := none, primaryLocation := none, secondaryLocation := none
  , primaryEndpoints := none
  , secondaryEndpoints := some { blob := none, queue := none, table := none, file := none } }

/-- A remote account carrying `noSecBlobProps`. -/
def noSecBlobResp : RemoteAccount :=
  { id := some sampleStorageId, name := some "acct1", location := some "westus"
  , kind := "Storage", sku := none, props := some noSecBlobProps, tags := [] }

/-- Read environment returning `noSecBlobResp` and two keys. -/
def noSecBlobEnv : StorageReadEnv :=
  { getProps := .ok noSecBlobResp, listKeys := .ok (some twoKeys) }

/-- A properties block with no secondary-endpoints group at all. -/
def noSecGroupProps : AccountProps :=
  { accessTier := "Hot", enableHttpsTrafficOnly := none, customDomain := none
  , encryption := none, primaryLocation := none, secondaryLocation := none
  , primaryEndpoints := none, secondaryEndpoints := none }

/-- A remote account carrying `noSecGroupProps`. -/
def noSecGroupResp : RemoteAccount :=
  { id := some sampleStorageId, name := some "acct1", location := some "westus"
  , kind := "Storage", sku := none, props := some noSecGroupProps, tags := [] }

/-- Read environment returning `noSecGroupResp` and two keys. -/
def noSecGroupEnv : StorageReadEnv :=
  { getProps := .ok noSecGroupResp, listKeys := .ok (some twoKeys) }

/-- A document holding a stale secondary blob endpoint from an earlier read. -/
def storageStaleDoc : StorageState :=
  { storageDocW with secondaryBlobEndpoint := "stale-endpoint" }

/-- A properties block where the secondary blob endpoint is absent while the
queue and table secondary endpoints are present. -/
def mixedSecProps : AccountProps :=
  { accessTier := "Hot", enableHttpsTrafficOnly := none, customDomain := none
  , encryption := none, primaryLocation := none, secondaryLocation := none
  , primaryEndpoints := none
  , secondaryEndpoints := some
      { blob := none, queue := some "https://q2", table := some "https://t2", file := none } }

/-- A remote account carrying `mixedSecProps`. -/
def mixedSecResp : RemoteAccount :=
  { id := some sampleStorageId, name := some "acct1", location := some "westus"
  , kind := "Storage", sku := none, props := some mixedSecProps, tags := [] }

/-- Read environment returning `mixedSecResp` and two keys. -/
def mixedSecEnv : StorageReadEnv :=
  { getProps := .ok mixedSecResp, listKeys := .ok (some twoKeys) }

/-! ## Helper lemmas -/

theorem goSplitChar_ne_nil (sep : Char) (l : List Char) : goSplitChar sep l ≠ [] := by
  cases l with
  | nil => simp [goSplitChar]
  | cons c cs =>
    simp only [goSplitChar]
    cases goSplitChar sep cs with
    | nil => simp
    | cons r rs =>
      by_cases h : c = sep <;> simp [h]

theorem goSplitChar_length (sep : Char) (l : List Char) :
    (goSplitChar sep l).length = l.count sep + 1 := by
  induction l with
  | nil => simp [goSplitChar]
  | cons c cs ih =>
    simp only [goSplitChar]
    cases hrec : goSplitChar sep cs with
    | nil => exact absurd hrec (goSplitChar_ne_nil sep cs)
    | cons r rs =>
      rw [hrec] at ih
      by_cases h : c = sep
      · subst h
        simp only [if_pos rfl, List.length_cons, List.count_cons]
        simp only [List.length_cons] at ih
        simp [ih]
      · have hne : (c == sep) = false := by simp [h]
        simp only [if_neg h, List.length_cons, List.count_cons, hne]
        simp only [List.length_cons] at ih
        simp [ih]

theorem listGet?_isSome_iff {α : Type} (l : List α) (n : Nat) :
    (l.get? n).isSome = true ↔ n < l.length := by
  constructor
  · intro h
    rcases ho : l.get? n with _ | a
    · rw [ho] at h; simp at h
    · exact (List.get?_eq_some.mp ho).1
  · intro h
    have hg := List.get?_eq_get h
    rw [hg]
    rfl

theorem runUpdGroups_all_none (env : Nat → Option String) (specs : List GroupSpec) :
    ∀ (calls : List AccountUpdateParameters) (partials : List String),
    (∀ g ∈ specs, g.cond = true → ∃ p, g.params = Except.ok p) →
    (∀ i, i < (activeGroups specs).length → env (calls.length + i) = none) →
    (runUpdGroups env specs calls partials).calls = calls ++ activeParams specs
      ∧ (runUpdGroups env specs calls partials).result = UpdResult.ok := by
  induction specs with
  | nil => intro calls partials _ _; simp [runUpdGroups, activeParams, activeGroups]
  | cons g rest ih =>
    intro calls partials hp henv
    by_cases hc : g.cond = true
    · obtain ⟨p, hpeq⟩ := hp g (by simp) hc
      have hact : activeGroups (g :: rest) = g :: activeGroups rest := by
        simp [activeGroups, List.filter_cons, hc]
      have henv0 : env calls.length = none := by
        have := henv 0 (by rw [hact]; simp)
        simpa using this
      simp only [runUpdGroups, hc, if_true, hpeq, henv0]
      have hrec := ih (calls ++ [p]) ((partials ++ g.partialsBefore) ++ g.partialsAfter)
        (fun g' hg' hc' => hp g' (by simp [hg']) hc')
        (by
          intro i hi
          have h2 := henv (i + 1) (by rw [hact]; simpa using Nat.succ_lt_succ hi)
          simpa [Nat.add_assoc, Nat.add_comm 1 i] using h2)
      rcases hrec with ⟨hcalls, hres⟩
      constructor
      · rw [hcalls]
        have : activeParams (g :: rest) = p :: activeParams rest := by
          simp [activeParams, hact, exceptOk?, hpeq]
        rw [this]
        simp
      · exact hres
    · have hcf : g.cond = false := by simpa using hc
      have hact : activeGroups (g :: rest) = activeGroups rest := by
        simp [activeGroups, List.filter_cons, hcf]
      simp only [runUpdGroups, hcf, Bool.false_eq_true, if_false]
      have hrec := ih calls partials (fun g' hg' hc' => hp g' (by simp [hg']) hc')
        (by intro i hi; exact henv i (by rw [hact]; exact hi))
      have hap : activeParams (g :: rest) = activeParams rest := by
        simp [activeParams, hact]
      rw [hap]
      exact hrec

theorem runUpdGroups_fail_at (env : Nat → Option String) (specs : List GroupSpec) :
    ∀ (calls : List AccountUpdateParameters) (partials : List String) (k : Nat) (e : String)
      (hp : ∀ g ∈ specs, g.cond = true → ∃ p, g.params = Except.ok p)
      (hk : k < (activeGroups specs).length)
      (henv : ∀ i, i < k → env (calls.length + i) = none)
      (hf : env (calls.length + k) = some e),
    (runUpdGroups env specs calls partials).calls
        = calls ++ (activeParams specs).take (k + 1)
      ∧ (runUpdGroups env specs calls partials).result
        = UpdResult.err (((activeGroups specs).get ⟨k, hk⟩).errMsg e) := by
  induction specs with
  | nil =>
    intro calls partials k e hp hk henv hf
    simp [activeGroups] at hk
  | cons g rest ih =>
    intro calls partials k e hp hk henv hf
    by_cases hc : g.cond = true
    · obtain ⟨p, hpeq⟩ := hp g (by simp) hc
      have hact : activeGroups (g :: rest) = g :: activeGroups rest := by
        simp [activeGroups, List.filter_cons, hc]
      have hap : activeParams (g :: rest) = p :: activeParams rest := by
        simp [activeParams, hact, exceptOk?, hpeq]
      cases k with
      | zero =>
        have hf0 : env calls.length = some e := by simpa using hf
        simp only [runUpdGroups, hc, if_true, hpeq, hf0]
        constructor
        · rw [hap]; simp
        · congr 1
          have : (activeGroups (g :: rest)).get ⟨0, hk⟩ = g := by
            simp [hact]
          rw [this]
      | succ k' =>
        have henv0 : env calls.length = none := by
          have := henv 0 (Nat.succ_pos k')
          simpa using this
        simp only [runUpdGroups, hc, if_true, hpeq, henv0]
        have hk' : k' < (activeGroups rest).length := by
          rw [hact] at hk
          simpa using Nat.lt_of_succ_lt_succ hk
        have hrec := ih (calls ++ [p]) ((partials ++ g.partialsBefore) ++ g.partialsAfter) k' e
          (fun g' hg' hc' => hp g' (by simp [hg']) hc')
          hk'
          (by
            intro i hi
            have h2 := henv (i + 1) (Nat.succ_lt_succ hi)
            simpa [Nat.add_assoc, Nat.add_comm 1 i] using h2)
          (by
            have : calls.length + (k' + 1) = (calls ++ [p]).length + k' := by
              simp; omega
            rw [this] at hf
            exact hf)
        rcases hrec with ⟨hcalls, hres⟩
        constructor
        · rw [hcalls, hap]
          simp [List.take_succ_cons]
        · rw [hres]
          congr 1
          have : (activeGroups (g :: rest)).get ⟨k' + 1, hk⟩
              = (activeGroups rest).get ⟨k', hk'⟩ := by
            simp [hact]
          rw [this]
    · have hcf : g.cond = false := by simpa using hc
      have hact : activeGroups (g :: rest) = activeGroups rest := by
        simp [activeGroups, List.filter_cons, hcf]
      have hap : activeParams (g :: rest) = activeParams rest := by
        simp [activeParams, hact]
      simp only [runUpdGroups, hcf, Bool.false_eq_true, if_false]
      have hk2 : k < (activeGroups rest).length := by rw [hact] at hk; exact hk
      have hrec := ih calls partials k e (fun g' hg' hc' => hp g' (by simp [hg']) hc') hk2 henv hf
      rcases hrec with ⟨hcalls, hres⟩
      refine ⟨by rw [hcalls, hap], ?_⟩
      rw [hres]
      congr 1
      have : (activeGroups (g :: rest)).get ⟨k, hk⟩ = (activeGroups rest).get ⟨k, hk2⟩ := by
        simp [hact]
      rw [this]

theorem runUpdGroups_partials_not_mem (env : Nat → Option String) (specs : List GroupSpec) :
    ∀ (calls : List AccountUpdateParameters) (partials : List String) (x : String),
    x ∉ partials →
    (∀ g ∈ specs, x ∉ g.partialsBefore ∧ x ∉ g.partialsAfter) →
    x ∉ (runUpdGroups env specs calls partials).partials := by
  induction specs with
  | nil =>
    intro calls partials x hx _
    simpa [runUpdGroups] using hx
  | cons g rest ih =>
    intro calls partials x hx hg
    obtain ⟨hb, ha⟩ := hg g (by simp)
    by_cases hc : g.cond = true
    · rcases hpeq : g.params with u | p
      · simp only [runUpdGroups, hc, if_true, hpeq]
        exact hx
      · simp only [runUpdGroups, hc, if_true, hpeq]
        rcases henv : env calls.length with _ | e
        · exact ih (calls ++ [p]) ((partials ++ g.partialsBefore) ++ g.partialsAfter) x
            (by simp [hx, hb, ha])
            (fun g' hg' => hg g' (by simp [hg']))
        · simp only []
          intro hmem
          rcases List.mem_append.mp hmem with h1 | h2
          · exact hx h1
          · exact hb h2
    · have hcf : g.cond = false := by simpa using hc
      simp only [runUpdGroups, hcf, Bool.false_eq_true, if_false]
      exact ih calls partials x hx (fun g' hg' => hg g' (by simp [hg']))

/-! ## Claim C4 -/

/-- Claim C4: for both resource kinds, a Read whose remote Get reports
not-found clears the resource identifier (sets it to the empty string) and
returns no error, while any other Get failure is returned as an error with
the document — identifier included — left unchanged. -/
theorem read_notfound_clears_identifier
    (s : StorageState) (env : StorageReadEnv) (rid : AzureResourceId)
    (sn : SnapshotState) (envn : SnapReadEnv) (ridn : AzureResourceId)
    (hid : parseAzureResourceID s.id = some rid)
    (hidn : parseAzureResourceID sn.id = some ridn) :
    (∀ m, env.getProps = .err true m →
        resourceArmStorageAccountRead s env = .ok { s with id := "" })
    ∧ (∀ m, env.getProps = .err false m →
        resourceArmStorageAccountRead s env
          = .fails ("Error reading the state of AzureRM Storage Account \""
              ++ ((rid.path.lookup "storageAccounts").getD "") ++ "\": " ++ m) s)
    ∧ (∀ m, envn.getResult = .err true m →
        resourceArmSnapshotRead sn envn = .ok { sn with id := "" })
    ∧ (∀ m, envn.getResult = .err false m →
        resourceArmSnapshotRead sn envn
          = .fails ("Error making Read request on Snapshot \""
              ++ ((ridn.path.lookup "snapshots").getD "") ++ "\": " ++ m) sn) := by
  refine ⟨?_, ?_, ?_, ?_⟩ <;> intro m hm <;>
    simp [resourceArmStorageAccountRead, resourceArmSnapshotRead, hid, hidn, hm]

theorem read_notfound_clears_identifier_witness :
    resourceArmStorageAccountRead storageDocW envNotFoundW = .ok { storageDocW with id := "" }
    ∧ resourceArmSnapshotRead snapshotDocW snapEnvNotFoundW
        = .ok { snapshotDocW with id := "" } := by
  have h := read_notfound_clears_identifier storageDocW envNotFoundW storageRidW
    snapshotDocW snapEnvNotFoundW snapshotRidW (by decide) (by decide)
  exact ⟨h.1 "gone" (by decide), h.2.2.1 "gone" (by decide)⟩

/-! ## Claim C3 -/

/-- Claim C3 counterexample: the storage-account Delete does not absorb a
not-found delete error — with a remote not-found report it returns an error,
so delete idempotence does not hold for both resource kinds. -/
theorem storage_delete_notfound_returns_error_cex :
    storageDelEnvNF.deleteNotFound = true
    ∧ resourceArmStorageAccountDelete storageDocW storageDelEnvNF
        = .fails ("Error issuing AzureRM delete request for storage account \"acct1\": ResourceNotFound")
            storageDocW := by
  decide

/-- Claim C3 (amended): delete idempotence holds for the snapshot resource —
a delete succeeding or failing with a remote not-found report both return
success — while the storage-account Delete returns an error for any failing
delete call, a not-found report included. -/
theorem delete_idempotency_split
    (sn : SnapshotState) (ridn : AzureResourceId) (env1 env2 : SnapDeleteEnv)
    (s : StorageState) (rid : AzureResourceId) (envs : StorageDeleteEnv) (e1 e2 : String)
    (hidn : parseAzureResourceID sn.id = some ridn)
    (hid : parseAzureResourceID s.id = some rid)
    (h1 : env1.deleteErr = none)
    (h2 : env2.deleteErr = some e1) (h2n : env2.deleteNotFound = true)
    (hs : envs.deleteErr = some e2) :
    resourceArmSnapshotDelete sn env1 = .ok sn
    ∧ resourceArmSnapshotDelete sn env2 = .ok sn
    ∧ resourceArmStorageAccountDelete s envs
        = .fails ("Error issuing AzureRM delete request for storage account \""
            ++ ((rid.path.lookup "storageAccounts").getD "") ++ "\": " ++ e2) s := by
  refine ⟨?_, ?_, ?_⟩ <;>
    simp [resourceArmSnapshotDelete, resourceArmStorageAccountDelete, hidn, hid, h1, h2, h2n, hs]

theorem delete_idempotency_split_witness :
    resourceArmSnapshotDelete snapshotDocW snapDelEnvOk = .ok snapshotDocW
    ∧ resourceArmSnapshotDelete snapshotDocW snapDelEnvNF = .ok snapshotDocW := by
  have h := delete_idempotency_split snapshotDocW snapshotRidW snapDelEnvOk snapDelEnvNF
    storageDocW storageRidW storageDelEnvErr "NotFound" "boom"
    (by decide) (by decide) (by decide) (by decide) (by decide) (by decide)
  exact ⟨h.1, h.2.1⟩

/-! ## Claim C8 -/

/-- Claim C8: reflecting a remote sku whose combined name is `"Standard_LRS"`
(of the `tier_replication` shape, so its tier is `"Standard"`) writes account
tier `"Standard"` and replication type `"LRS"` back into the document, and the
underscore split the reflector uses is well-defined exactly when the remote
value contains the `"_"` delimiter. -/
theorem sku_split_tier_replication :
    readTierRepl? (resourceArmStorageAccountRead storageDocW skuReadEnv)
      = some ("Standard", "LRS")
    ∧ (∀ s : String, ((goSplit '_' s).get? 1).isSome = true ↔ '_' ∈ s.data) := by
  constructor
  · decide
  · intro s
    rw [listGet?_isSome_iff]
    have hlen : (goSplit '_' s).length = s.data.count '_' + 1 := by
      simp [goSplit, goSplitChar_length]
    rw [hlen]
    have h2 : 1 < s.data.count '_' + 1 ↔ 0 < s.data.count '_' := by omega
    rw [h2, List.count_pos_iff]

/-! ## Create-side helper lemmas -/

theorem buildStorageCreateParams_ok (s : StorageState) :
    ∃ p, buildStorageCreateParams s = .ok p
      ∧ p.skuName = s.accountTier ++ "_" ++ s.accountReplicationType
      ∧ p.accessTier = "" := by
  unfold buildStorageCreateParams
  rcases hcd : s.customDomain with _ | ⟨d, ds⟩ <;>
    by_cases hf : s.enableFileEncryption <;>
      simp [hcd, hf, expandStorageAccountCustomDomain]

theorem storageAccountCreateCalls_accessTier (s : StorageState) (env : StorageCreateEnv)
    (p : AccountCreateParameters) :
    firstCreateCallAccessTier? (storageAccountCreateCalls s env p) = some p.accessTier := by
  rcases h1 : env.createErr with _ | e1 <;>
  rcases h2 : env.getErr with _ | e2 <;>
  rcases h3 : env.getId with _ | i <;>
  rcases h4 : env.waitErr with _ | e4 <;>
  simp [storageAccountCreateCalls, firstCreateCallAccessTier?, h1, h2, h3, h4]

/-! ## Claim C9 -/

/-- Claim C9: a create of a BlobStorage-kind account with no configured
access tier issues a create request carrying the fixed default `"Hot"`;
a create of a non-BlobStorage account issues a create request with no access
tier set (the zero value). -/
theorem create_access_tier_defaulting (s : StorageState) (env : StorageCreateEnv) :
    (s.accountKind = "BlobStorage" → s.accessTier = "" →
      s.accountTier ++ "_" ++ s.accountReplicationType ≠ "Standard_ZRS" →
      firstCreateCallAccessTier? (resourceArmStorageAccountCreate s env) = some "Hot")
    ∧ (s.accountKind ≠ "BlobStorage" →
      firstCreateCallAccessTier? (resourceArmStorageAccountCreate s env) = some "") := by
  obtain ⟨p, hbp, hsku, hat⟩ := buildStorageCreateParams_ok s
  constructor
  · intro hk ht hz
    unfold resourceArmStorageAccountCreate
    rw [hbp]
    have hkb : (s.accountKind == "BlobStorage") = true := by simp [hk]
    have hzb : (p.skuName == "Standard_ZRS") = false := by
      rw [hsku]
      exact beq_eq_false_iff_ne.mpr hz
    have htb : (s.accessTier == "") = true := by simp [ht]
    simp only [hkb, hzb, htb, if_true, Bool.false_eq_true, if_false]
    rw [storageAccountCreateCalls_accessTier]
    simp [blobStorageAccountDefaultAccessTier]
  · intro hk
    unfold resourceArmStorageAccountCreate
    rw [hbp]
    have hkb : (s.accountKind == "BlobStorage") = false := beq_eq_false_iff_ne.mpr hk
    simp only [hkb, Bool.false_eq_true, if_false]
    rw [storageAccountCreateCalls_accessTier, hat]

theorem create_access_tier_defaulting_witness :
    firstCreateCallAccessTier? (resourceArmStorageAccountCreate blobDocW createEnvW)
      = some "Hot"
    ∧ firstCreateCallAccessTier? (resourceArmStorageAccountCreate stdDocW createEnvW)
      = some "" :=
  ⟨(create_access_tier_defaulting blobDocW createEnvW).1 rfl rfl (by decide),
   (create_access_tier_defaulting stdDocW createEnvW).2 (by decide)⟩

/-! ## Claim C5 -/

/-- Claim C5: for a document with account kind `BlobStorage` and combined sku
`Standard_ZRS` (tier `Standard`, replication `ZRS`), both Create and Update
return the validation error without issuing a single remote client call. -/
theorem blobstorage_zrs_rejected_before_calls
    (s : StorageState) (c : StorageChanges) (env : StorageCreateEnv)
    (uenv : Nat → Option String) (rid : AzureResourceId)
    (hk : s.accountKind = "BlobStorage") (ht : s.accountTier = "Standard")
    (hr : s.accountReplicationType = "ZRS")
    (hid : parseAzureResourceID s.id = some rid) :
    resourceArmStorageAccountCreate s env = ⟨[], .fails zrsBlobMsg s⟩
    ∧ resourceArmStorageAccountUpdate s c uenv = ⟨[], [], .err zrsBlobMsg⟩ := by
  obtain ⟨p, hbp, hsku, hat⟩ := buildStorageCreateParams_ok s
  constructor
  · unfold resourceArmStorageAccountCreate
    rw [hbp]
    have h1 : (s.accountKind == "BlobStorage") = true := by simp [hk]
    have h2 : (p.skuName == "Standard_ZRS") = true := by
      rw [hsku, ht, hr]; decide
    simp [h1, h2]
  · unfold resourceArmStorageAccountUpdate
    rw [hid]
    have h3 : (s.accountKind == "BlobStorage"
        && (s.accountTier ++ "_" ++ s.accountReplicationType) == "Standard_ZRS") = true := by
      rw [hk, ht, hr]; decide
    simp [h3]

theorem blobstorage_zrs_rejected_before_calls_witness :
    resourceArmStorageAccountCreate zrsDocW createEnvW = ⟨[], .fails zrsBlobMsg zrsDocW⟩
    ∧ resourceArmStorageAccountUpdate zrsDocW noChangesW updEnvNoneW
        = ⟨[], [], .err zrsBlobMsg⟩ :=
  blobstorage_zrs_rejected_before_calls zrsDocW noChangesW createEnvW updEnvNoneW
    storageRidW rfl rfl rfl (by decide)

/-! ## Claim C1 -/

/-- Claim C1 counterexample: for the snapshot resource a failed create
returns the create error at once — the follow-up Get (which in this
environment would return the non-empty identifier `"someid"`) is never
issued and no identifier is recorded into the document. -/
theorem snapshot_create_error_skips_get_cex :
    resourceArmSnapshotCreateUpdate snapCexDoc snapCexEnv
      = ⟨[.createOrUpdate (snapshotProperties snapCexDoc)], .fails "create failed" snapCexDoc⟩
    ∧ snapCexEnv.getAfterCreate
      = .ok { id := some "someid", name := some "snap1", location := some "westus"
            , props := none, tags := [] }
    ∧ snapCexDoc.id = "" := by
  decide

/-- Claim C1 (amended): for the storage account, when the remote create call
fails but the immediately following Get succeeds with a (non-empty)
identifier, the identifier is recorded in the document that is returned
together with the create error; for the snapshot, a failed create returns the
create error immediately — only the create call is issued, the follow-up Get
is skipped and no identifier is recorded. -/
theorem create_identifier_recorded_before_error
    (s : StorageState) (env : StorageCreateEnv) (e i : String)
    (sn : SnapshotState) (envn : SnapCreateEnv) (en : String)
    (hz : (s.accountKind == "BlobStorage"
        && (s.accountTier ++ "_" ++ s.accountReplicationType) == "Standard_ZRS") = false)
    (hc : env.createErr = some e) (hg : env.getErr = none) (hi : env.getId = some i)
    (hne : i ≠ "")
    (hcn : envn.createErr = some en) :
    (resourceArmStorageAccountCreate s env).result
        = .fails ("Error creating Azure Storage Account \"" ++ s.name ++ "\": " ++ e)
            { s with id := i }
    ∧ resourceArmSnapshotCreateUpdate sn envn
        = ⟨[.createOrUpdate (snapshotProperties sn)], .fails en sn⟩ := by
  obtain ⟨p, hbp, hsku, hat⟩ := buildStorageCreateParams_ok s
  constructor
  · unfold resourceArmStorageAccountCreate
    rw [hbp]
    by_cases hbk : (s.accountKind == "BlobStorage") = true
    · have hzb : (p.skuName == "Standard_ZRS") = false := by
        rw [hsku]
        rcases Bool.and_eq_false_iff.mp hz with h | h
        · rw [hbk] at h; cases h
        · exact h
      simp only [hbk, hzb, if_true, Bool.false_eq_true, if_false]
      simp [storageAccountCreateCalls, hc, hg, hi]
    · have hbf : (s.accountKind == "BlobStorage") = false := by simpa using hbk
      simp only [hbf, Bool.false_eq_true, if_false]
      simp [storageAccountCreateCalls, hc, hg, hi]
  · simp [resourceArmSnapshotCreateUpdate, hcn]

theorem create_identifier_recorded_before_error_witness :
    (resourceArmStorageAccountCreate stdDocW createFailEnvW).result
        = .fails ("Error creating Azure Storage Account \"" ++ stdDocW.name ++ "\": " ++ "boom")
            { stdDocW with id := "recovered-id" }
    ∧ resourceArmSnapshotCreateUpdate snapshotDocW snapFailEnvW
        = ⟨[.createOrUpdate (snapshotProperties snapshotDocW)], .fails "bang" snapshotDocW⟩ :=
  create_identifier_recorded_before_error stdDocW createFailEnvW "boom" "recovered-id"
    snapshotDocW snapFailEnvW "bang" (by decide) rfl rfl rfl (by decide) rfl

/-! ## Claim C2 -/

theorem activeParams_length (specs : List GroupSpec)
    (hp : ∀ g ∈ specs, g.cond = true → ∃ p, g.params = Except.ok p) :
    (activeParams specs).length = (activeGroups specs).length := by
  induction specs with
  | nil => simp [activeParams, activeGroups]
  | cons g rest ih =>
    by_cases hc : g.cond = true
    · obtain ⟨p, hpeq⟩ := hp g (by simp) hc
      have hact : activeGroups (g :: rest) = g :: activeGroups rest := by
        simp [activeGroups, List.filter_cons, hc]
      have hap : activeParams (g :: rest) = p :: activeParams rest := by
        simp [activeParams, hact, exceptOk?, hpeq]
      rw [hact, hap]
      simpa using ih (fun g' hg' hc' => hp g' (by simp [hg']) hc')
    · have hcf : g.cond = false := by simpa using hc
      have hact : activeGroups (g :: rest) = activeGroups rest := by
        simp [activeGroups, List.filter_cons, hcf]
      have hap : activeParams (g :: rest) = activeParams rest := by
        simp [activeParams, hact]
      rw [hact, hap]
      exact ih (fun g' hg' hc' => hp g' (by simp [hg']) hc')

theorem runUpdGroups_panic_after (env : Nat → Option String) (specs1 : List GroupSpec)
    (g : GroupSpec) (specs2 : List GroupSpec) :
    ∀ (calls : List AccountUpdateParameters) (partials : List String),
    (∀ g' ∈ specs1, g'.cond = true → ∃ p, g'.params = Except.ok p) →
    (∀ i, i < (activeGroups specs1).length → env (calls.length + i) = none) →
    g.cond = true → g.params = Except.error () →
    (runUpdGroups env (specs1 ++ g :: specs2) calls partials).calls
        = calls ++ activeParams specs1
    ∧ (runUpdGroups env (specs1 ++ g :: specs2) calls partials).result
        = UpdResult.panics := by
  induction specs1 with
  | nil =>
    intro calls partials _ _ hc hperr
    simp [runUpdGroups, hc, hperr, activeParams, activeGroups]
  | cons g1 rest ih =>
    intro calls partials hp henv hc hperr
    by_cases hc1 : g1.cond = true
    · obtain ⟨p, hpeq⟩ := hp g1 (by simp) hc1
      have hact : activeGroups (g1 :: rest) = g1 :: activeGroups rest := by
        simp [activeGroups, List.filter_cons, hc1]
      have henv0 : env calls.length = none := by
        have := henv 0 (by rw [hact]; simp)
        simpa using this
      simp only [List.cons_append, runUpdGroups, hc1, if_true, hpeq, henv0, List.append_eq]
      have hrec := ih (calls ++ [p]) ((partials ++ g1.partialsBefore) ++ g1.partialsAfter)
        (fun g' hg' hcg => hp g' (by simp [hg']) hcg)
        (by
          intro i hi
          have h2 := henv (i + 1) (by rw [hact]; simpa using Nat.succ_lt_succ hi)
          simpa [Nat.add_assoc, Nat.add_comm 1 i] using h2)
        hc hperr
      rcases hrec with ⟨hcalls, hres⟩
      have hap : activeParams (g1 :: rest) = p :: activeParams rest := by
        simp [activeParams, hact, exceptOk?, hpeq]
      exact ⟨by rw [hcalls, hap]; simp, hres⟩
    · have hcf : g1.cond = false := by simpa using hc1
      have hact : activeGroups (g1 :: rest) = activeGroups rest := by
        simp [activeGroups, List.filter_cons, hcf]
      have hap : activeParams (g1 :: rest) = activeParams rest := by
        simp [activeParams, hact]
      simp only [List.cons_append, runUpdGroups, hcf, Bool.false_eq_true, if_false,
        List.append_eq]
      rw [hap]
      exact ih calls partials (fun g' hg' hcg => hp g' (by simp [hg']) hcg)
        (by intro i hi; exact henv i (by rw [hact]; exact hi)) hc hperr

/-- Claim C2 counterexample: with two changed groups (tags and custom domain)
and a custom-domain list that is empty (the block was removed), the run
issues only the tags call and then panics building the custom-domain request
(`domains[0]` out of range) — exactly N calls are not issued and no error
names the group. -/
theorem update_custom_domain_empty_list_panics_cex :
    cCdW.customDomain = true
    ∧ sUpdW.customDomain = []
    ∧ resourceArmStorageAccountUpdate sUpdW cCdW updEnvNoneW
        = ⟨[{ skuName := none, tags := some [("env", "dev")], props := none }],
            ["tags"], .panics⟩ := by
  decide

/-- Claim C2 (amended): an update with N changed field groups (replication
type, access tier, tags, encryption flags, custom domain, transport security
— the active groups, in that fixed source order) issues exactly N remote
update calls, one per group in that order, when every call succeeds; and when
the k-th issued call fails, exactly the calls of the first k+1 active groups
were issued (no later call, no rollback call) and the returned error is the
failing group's own message — provided that, when the custom-domain group
changed, its configured list is non-empty.  When the custom-domain group
changed with an empty configured list, Update panics (`domains[0]` out of
range) while building that group's request: exactly the calls of the changed
groups preceding custom domain are issued, and no further call is issued and
no error is returned. -/
theorem storage_update_one_call_per_group
    (s : StorageState) (c : StorageChanges) (env : Nat → Option String)
    (rid : AzureResourceId)
    (hid : parseAzureResourceID s.id = some rid)
    (hz : (s.accountKind == "BlobStorage"
        && (s.accountTier ++ "_" ++ s.accountReplicationType) == "Standard_ZRS") = false) :
    ∀ groups, groups = storageUpdateGroups s c ((rid.path.lookup "storageAccounts").getD "") →
    ((c.customDomain = true → s.customDomain ≠ []) →
      (activeParams groups).length = (activeGroups groups).length
      ∧ ((∀ i, i < (activeGroups groups).length → env i = none) →
          (resourceArmStorageAccountUpdate s c env).calls = activeParams groups
          ∧ (resourceArmStorageAccountUpdate s c env).result = UpdResult.ok)
      ∧ (∀ (k : Nat) (e : String) (hk : k < (activeGroups groups).length),
          (∀ i, i < k → env i = none) → env k = some e →
          (resourceArmStorageAccountUpdate s c env).calls = (activeParams groups).take (k + 1)
          ∧ (resourceArmStorageAccountUpdate s c env).result
              = UpdResult.err (((activeGroups groups).get ⟨k, hk⟩).errMsg e)))
    ∧ (c.customDomain = true → s.customDomain = [] →
        ∀ pre, pre = storageUpdateGroupsPre s c ((rid.path.lookup "storageAccounts").getD "") →
        (∀ i, i < (activeGroups pre).length → env i = none) →
        (resourceArmStorageAccountUpdate s c env).calls = activeParams pre
        ∧ (resourceArmStorageAccountUpdate s c env).result = UpdResult.panics) := by
  intro groups hgroups
  have hred : resourceArmStorageAccountUpdate s c env = runUpdGroups env groups [] [] := by
    unfold resourceArmStorageAccountUpdate
    rw [hid]
    simp [hz, hgroups]
  constructor
  · intro hcd
    have hp : ∀ g ∈ groups, g.cond = true → ∃ p, g.params = Except.ok p := by
      subst hgroups
      intro g hg hcnd
      simp only [storageUpdateGroups, List.mem_cons, List.mem_singleton, List.not_mem_nil,
        or_false] at hg
      rcases hg with rfl | rfl | rfl | rfl | rfl | rfl
      · exact ⟨_, rfl⟩
      · exact ⟨_, rfl⟩
      · exact ⟨_, rfl⟩
      · exact ⟨_, rfl⟩
      · have hne := hcd hcnd
        rcases hcdl : s.customDomain with _ | ⟨d, ds⟩
        · exact absurd hcdl hne
        · refine ⟨{ props := some { customDomain := some d } }, ?_⟩
          simp only [customDomainGroupSpec]
          rw [hcdl]
          rfl
      · exact ⟨_, rfl⟩
    refine ⟨activeParams_length groups hp, ?_, ?_⟩
    · intro henv
      have h := runUpdGroups_all_none env groups [] [] hp (by simpa using henv)
      rw [hred]
      simpa using h
    · intro k e hk h1 h2
      have h := runUpdGroups_fail_at env groups [] [] k e hp hk
        (by simpa using h1) (by simpa using h2)
      rw [hred]
      simpa using h
  · intro hcdt hcde pre hpre henv
    have hsplit : groups
        = storageUpdateGroupsPre s c ((rid.path.lookup "storageAccounts").getD "")
          ++ customDomainGroupSpec s c ((rid.path.lookup "storageAccounts").getD "")
          :: [httpsOnlyGroupSpec s c ((rid.path.lookup "storageAccounts").getD "")] := by
      rw [hgroups]
      rfl
    have hp4 : ∀ g' ∈ storageUpdateGroupsPre s c ((rid.path.lookup "storageAccounts").getD ""),
        g'.cond = true → ∃ p, g'.params = Except.ok p := by
      intro g' hg' _
      simp only [storageUpdateGroupsPre, List.mem_cons, List.mem_singleton,
        List.not_mem_nil, or_false] at hg'
      rcases hg' with rfl | rfl | rfl | rfl
      · exact ⟨_, rfl⟩
      · exact ⟨_, rfl⟩
      · exact ⟨_, rfl⟩
      · exact ⟨_, rfl⟩
    have hcdp : (customDomainGroupSpec s c
        ((rid.path.lookup "storageAccounts").getD "")).params = Except.error () := by
      simp only [customDomainGroupSpec]
      rw [hcde]
      rfl
    have h := runUpdGroups_panic_after env
      (storageUpdateGroupsPre s c ((rid.path.lookup "storageAccounts").getD ""))
      (customDomainGroupSpec s c ((rid.path.lookup "storageAccounts").getD ""))
      [httpsOnlyGroupSpec s c ((rid.path.lookup "storageAccounts").getD "")]
      [] [] hp4
      (by
        intro i hi
        have := henv i (by rw [hpre]; exact hi)
        simpa using this)
      hcdt hcdp
    rw [hred, hsplit, hpre]
    exact ⟨by simpa using h.1, h.2⟩

theorem storage_update_one_call_per_group_witness :
    (resourceArmStorageAccountUpdate sUpdW cUpdW updEnvNoneW).result = UpdResult.ok
    ∧ (resourceArmStorageAccountUpdate sUpdW cUpdW updEnvNoneW).calls.length = 2
    ∧ (resourceArmStorageAccountUpdate sUpdW cUpdW updFail0W).result
        = UpdResult.err ("Error updating Azure Storage Account tags \"acct1\": boom")
    ∧ (resourceArmStorageAccountUpdate sUpdW cCdW updEnvNoneW).result = UpdResult.panics := by
  have h := (storage_update_one_call_per_group sUpdW cUpdW updEnvNoneW storageRidW
    (by decide) (by decide)
    (storageUpdateGroups sUpdW cUpdW "acct1") rfl).1 (by decide)
  have hfail := (storage_update_one_call_per_group sUpdW cUpdW updFail0W storageRidW
    (by decide) (by decide)
    (storageUpdateGroups sUpdW cUpdW "acct1") rfl).1 (by decide)
  have hpanic := (storage_update_one_call_per_group sUpdW cCdW updEnvNoneW storageRidW
    (by decide) (by decide)
    (storageUpdateGroups sUpdW cCdW "acct1") rfl).2
    rfl rfl (storageUpdateGroupsPre sUpdW cCdW "acct1") rfl (fun i _ => rfl)
  have h1 := h.2.1 (fun i _ => rfl)
  have h2 := hfail.2.2 0 "boom" (by decide) (fun i hi => absurd hi (Nat.not_lt_zero i)) rfl
  refine ⟨h1.2, ?_, ?_, hpanic.2⟩
  · rw [h1.1]; decide
  · rw [h2.2]; decide

/-! ## Claim C10 -/

/-- Claim C10: the encryption update group records
`enable_blob_encryption` and `enable_file_encryption` as persisted
(`SetPartial`) before its remote call is issued, so both keys are recorded
even when that call fails; the custom-domain group never calls `SetPartial`,
so `custom_domain` is never recorded by any update run. -/
theorem update_encryption_partials_custom_domain_never :
    (∀ (s : StorageState) (c : StorageChanges) (env : Nat → Option String),
        "custom_domain" ∉ (resourceArmStorageAccountUpdate s c env).partials)
    ∧ (∀ (s : StorageState) (c : StorageChanges) (env : Nat → Option String)
          (rid : AzureResourceId) (e : String),
        parseAzureResourceID s.id = some rid →
        (s.accountKind == "BlobStorage"
          && (s.accountTier ++ "_" ++ s.accountReplicationType) == "Standard_ZRS") = false →
        c.accountReplicationType = false → c.accessTier = false → c.tags = false →
        c.enableBlobEncryption = true → c.enableFileEncryption = true →
        env 0 = some e →
        (resourceArmStorageAccountUpdate s c env).partials
            = ["enable_blob_encryption", "enable_file_encryption"]
        ∧ (resourceArmStorageAccountUpdate s c env).result
            = UpdResult.err ("Error updating Azure Storage Account Encryption \""
                ++ ((rid.path.lookup "storageAccounts").getD "") ++ "\": " ++ e)) := by
  constructor
  · intro s c env
    unfold resourceArmStorageAccountUpdate
    rcases hpid : parseAzureResourceID s.id with _ | rid
    · simp
    · by_cases hzrs : (s.accountKind == "BlobStorage"
          && (s.accountTier ++ "_" ++ s.accountReplicationType) == "Standard_ZRS") = true
      · simp [hzrs]
      · have hzf : (s.accountKind == "BlobStorage"
            && (s.accountTier ++ "_" ++ s.accountReplicationType) == "Standard_ZRS") = false := by
          simpa using hzrs
        simp only [hzf, Bool.false_eq_true, if_false]
        apply runUpdGroups_partials_not_mem
        · simp
        · intro g hg
          simp only [storageUpdateGroups, List.mem_cons, List.mem_singleton,
            List.not_mem_nil, or_false] at hg
          rcases hg with rfl | rfl | rfl | rfl | rfl | rfl
          · exact ⟨by simp [replicationGroupSpec], by simp [replicationGroupSpec]⟩
          · exact ⟨by simp [accessTierGroupSpec], by simp [accessTierGroupSpec]⟩
          · exact ⟨by simp [tagsGroupSpec], by simp [tagsGroupSpec]⟩
          · refine ⟨?_, by simp [encryptionGroupSpec]⟩
            intro hmem
            simp only [encryptionGroupSpec] at hmem
            rcases List.mem_append.mp hmem with h | h <;> revert h <;> split <;> simp
          · exact ⟨by simp [customDomainGroupSpec], by simp [customDomainGroupSpec]⟩
          · exact ⟨by simp [httpsOnlyGroupSpec], by simp [httpsOnlyGroupSpec]⟩
  · intro s c env rid e hpid hzf h1 h2 h3 h4 h5 he
    unfold resourceArmStorageAccountUpdate
    rw [hpid]
    simp only [hzf, Bool.false_eq_true, if_false]
    simp [storageUpdateGroups, replicationGroupSpec, accessTierGroupSpec, tagsGroupSpec,
      encryptionGroupSpec, customDomainGroupSpec, httpsOnlyGroupSpec,
      runUpdGroups, h1, h2, h3, h4, h5, he]

theorem update_encryption_partials_custom_domain_never_witness :
    (resourceArmStorageAccountUpdate sUpdW cEncW updFail0W).partials
      = ["enable_blob_encryption", "enable_file_encryption"]
    ∧ "custom_domain" ∉ (resourceArmStorageAccountUpdate sUpdW cEncW updFail0W).partials := by
  have h := update_encryption_partials_custom_domain_never
  exact ⟨(h.2 sUpdW cEncW updFail0W storageRidW "boom"
      (by decide) (by decide) rfl rfl rfl rfl rfl rfl).1,
    h.1 sUpdW cEncW updFail0W⟩

/-! ## Claim C6 -/

/-- Claim C6 counterexample: when `ListKeys` returns a single key, Read does
not produce empty secondary fields — it faults (out-of-range access of
`accessKeys[1]`), even though the remote Get succeeded. -/
theorem read_single_key_faults_cex :
    oneKeyEnv.listKeys = .ok (some [{ value := some "key0" }])
    ∧ resourceArmStorageAccountRead storageDocW oneKeyEnv = .panics := by
  decide

/-- Claim C6 (amended): an absent secondary blob endpoint is handled safely —
the secondary endpoint and connection-string fields are set to empty strings
(any successful Read requires at least two listed secrets); but a secret list
with fewer than two entries makes Read fault on the unconditional
`accessKeys[1]` (or `accessKeys[0]`) access instead of producing empty
strings. -/
theorem secondary_key_access_faults_or_empty
    (s : StorageState) (env : StorageReadEnv) (rid : AzureResourceId)
    (resp : RemoteAccount) (loc : String) (keys : List AccountKey)
    (hid : parseAzureResourceID s.id = some rid)
    (hresp : env.getProps = .ok resp)
    (hloc : resp.location = some loc)
    (hsku : resp.sku = none)
    (hprops : resp.props = none)
    (hkeys : env.listKeys = .ok (some keys))
    (hlen : keys.length ≤ 1)
    (s2 : StorageState) (env2 : StorageReadEnv) (rid2 : AzureResourceId)
    (resp2 : RemoteAccount) (loc2 : String) (props2 : AccountProps)
    (eps2 : AccountEndpoints) (k0 k1 : AccountKey) (rest : List AccountKey)
    (hid2 : parseAzureResourceID s2.id = some rid2)
    (hresp2 : env2.getProps = .ok resp2)
    (hloc2 : resp2.location = some loc2)
    (hsku2 : resp2.sku = none)
    (hprops2 : resp2.props = some props2)
    (hcd2 : props2.customDomain = none)
    (henc2 : props2.encryption = none)
    (hpe2 : props2.primaryEndpoints = none)
    (hse2 : props2.secondaryEndpoints = some eps2)
    (hb2 : eps2.blob = none) (hq2 : eps2.queue = none) (ht2 : eps2.table = none)
    (hkeys2 : env2.listKeys = .ok (some (k0 :: k1 :: rest))) :
    resourceArmStorageAccountRead s env = .panics
    ∧ readSecondaryFields? (resourceArmStorageAccountRead s2 env2)
        = some ("", "", "", "") := by
  constructor
  · simp only [resourceArmStorageAccountRead, hid, hresp, hkeys, hloc, hsku, hprops,
      storageReadSku, storageReadProps]
    rcases keys with _ | ⟨a, _ | ⟨b, t⟩⟩
    · simp [storageReadKeysTail]
    · simp [storageReadKeysTail]
    · simp at hlen
  · simp [resourceArmStorageAccountRead, hid2, hresp2, hkeys2, hloc2, hsku2, hprops2,
      storageReadSku, storageReadProps, hcd2, henc2, storageReadEncryptionFields,
      hpe2, storageReadPrimaryEps, hse2, storageReadSecondaryEps, hb2,
      storageReadSecondaryQT, hq2, ht2, storageReadKeysTail, readSecondaryFields?]

theorem secondary_key_access_faults_or_empty_witness :
    resourceArmStorageAccountRead storageDocW oneKeyEnv = .panics
    ∧ readSecondaryFields? (resourceArmStorageAccountRead storageDocW noSecBlobEnv)
        = some ("", "", "", "") := by
  have h := secondary_key_access_faults_or_empty storageDocW oneKeyEnv storageRidW
    oneKeyResp "westus" [{ value := some "key0" }]
    (by decide) rfl rfl rfl rfl rfl (by decide)
    storageDocW noSecBlobEnv storageRidW noSecBlobResp "westus" noSecBlobProps
    { blob := none, queue := none, table := none, file := none }
    { value := some "key0" } { value := some "key1" } []
    (by decide) rfl rfl rfl rfl rfl rfl rfl rfl rfl rfl rfl rfl
  exact h

/-! ## Claim C7 -/

/-- Claim C7 counterexample: when the remote properties carry no
secondary-endpoints group at all, every secondary endpoint of every service is
absent, yet Read leaves the previous (stale) value of
`secondary_blob_endpoint` in place instead of writing an empty string. -/
theorem read_missing_secondary_group_stale_cex :
    noSecGroupProps.secondaryEndpoints = none
    ∧ readSecondaryFields? (resourceArmStorageAccountRead storageStaleDoc noSecGroupEnv)
        = some ("stale-endpoint", "", "", "") := by
  decide

/-- Claim C7 (amended): when the remote secondary-endpoints group is present,
each service endpoint that is absent remotely (blob here, with queue and
table present; queue and table behave alike by the same block) is written back
as an empty string — the blob connection string included; but when the whole
secondary-endpoints group is absent remotely, Read writes none of the
secondary fields and the previous values stay in place. -/
theorem secondary_endpoint_absent_empty_when_group_present
    (s : StorageState) (env : StorageReadEnv) (rid : AzureResourceId)
    (resp : RemoteAccount) (loc : String) (props : AccountProps)
    (eps : AccountEndpoints) (q t : String) (k0 k1 : AccountKey) (rest : List AccountKey)
    (hid : parseAzureResourceID s.id = some rid)
    (hresp : env.getProps = .ok resp)
    (hloc : resp.location = some loc)
    (hsku : resp.sku = none)
    (hprops : resp.props = some props)
    (hcd : props.customDomain = none)
    (henc : props.encryption = none)
    (hpe : props.primaryEndpoints = none)
    (hse : props.secondaryEndpoints = some eps)
    (hb : eps.blob = none) (hq : eps.queue = some q) (ht : eps.table = some t)
    (hkeys : env.listKeys = .ok (some (k0 :: k1 :: rest)))
    (s2 : StorageState) (env2 : StorageReadEnv) (rid2 : AzureResourceId)
    (resp2 : RemoteAccount) (loc2 : String) (props2 : AccountProps)
    (k0b k1b : AccountKey) (rest2 : List AccountKey)
    (hid2 : parseAzureResourceID s2.id = some rid2)
    (hresp2 : env2.getProps = .ok resp2)
    (hloc2 : resp2.location = some loc2)
    (hsku2 : resp2.sku = none)
    (hprops2 : resp2.props = some props2)
    (hcd2 : props2.customDomain = none)
    (henc2 : props2.encryption = none)
    (hpe2 : props2.primaryEndpoints = none)
    (hse2 : props2.secondaryEndpoints = none)
    (hkeys2 : env2.listKeys = .ok (some (k0b :: k1b :: rest2))) :
    readSecondaryFields? (resourceArmStorageAccountRead s env) = some ("", "", q, t)
    ∧ readSecondaryFields? (resourceArmStorageAccountRead s2 env2)
        = some (s2.secondaryBlobEndpoint, s2.secondaryBlobConnectionString,
            s2.secondaryQueueEndpoint, s2.secondaryTableEndpoint) := by
  constructor
  · simp [resourceArmStorageAccountRead, hid, hresp, hkeys, hloc, hsku, hprops,
      storageReadSku, storageReadProps, hcd, henc, storageReadEncryptionFields,
      hpe, storageReadPrimaryEps, hse, storageReadSecondaryEps, hb,
      storageReadSecondaryQT, hq, ht, storageReadKeysTail, readSecondaryFields?]
  · simp [resourceArmStorageAccountRead, hid2, hresp2, hkeys2, hloc2, hsku2, hprops2,
      storageReadSku, storageReadProps, hcd2, henc2, storageReadEncryptionFields,
      hpe2, storageReadPrimaryEps, hse2, storageReadSecondaryEps,
      storageReadKeysTail, readSecondaryFields?]

theorem secondary_endpoint_absent_empty_when_group_present_witness :
    readSecondaryFields? (resourceArmStorageAccountRead storageDocW mixedSecEnv)
        = some ("", "", "https://q2", "https://t2")
    ∧ readSecondaryFields? (resourceArmStorageAccountRead storageStaleDoc noSecGroupEnv)
        = some (storageStaleDoc.secondaryBlobEndpoint,
            storageStaleDoc.secondaryBlobConnectionString,
            storageStaleDoc.secondaryQueueEndpoint,
            storageStaleDoc.secondaryTableEndpoint) := by
  have h := secondary_endpoint_absent_empty_when_group_present storageDocW mixedSecEnv
    storageRidW mixedSecResp "westus" mixedSecProps
    { blob := none, queue := some "https://q2", table := some "https://t2", file := none }
    "https://q2" "https://t2" { value := some "key0" } { value := some "key1" } []
    (by decide) rfl rfl rfl rfl rfl rfl rfl rfl rfl rfl rfl rfl
    storageStaleDoc noSecGroupEnv storageRidW noSecGroupResp "westus" noSecGroupProps
    { value := some "key0" } { value := some "key1" } []
    (by decide) rfl rfl rfl rfl rfl rfl rfl rfl rfl
  exact h

end AzureRM
